import Mathlib

/-!
Shallow embedding of the OpenConvert conversion-orchestration client
(`openconvert/client.py` and `openconvert_cli.py`).

Python dictionaries with string keys are modelled as association lists;
Python values appearing in message contents are modelled by `PyVal`
(strings, booleans and `None`), together with Python truthiness.
-/

namespace OpenConvert

/-- A Python value as it appears in conversion request/response contents:
a string, a boolean, or `None`. -/
inductive PyVal where
  | str (s : String)
  | bool (b : Bool)
  | pynone
deriving DecidableEq, Repr

/-- Python truthiness of a `PyVal`: nonempty strings and `True` are truthy;
the empty string, `False` and `None` are falsy. -/
def PyVal.truthy : PyVal → Bool
  | PyVal.str s => !(s = "")
  | PyVal.bool b => b
  | PyVal.pynone => false

/-- Python `==` between two `PyVal`s: values of the same shape compare by
equality, `None == None` is true, and values of different shapes are unequal. -/
def pyEq : PyVal → PyVal → Bool
  | PyVal.str a, PyVal.str b => a = b
  | PyVal.bool a, PyVal.bool b => a = b
  | PyVal.pynone, PyVal.pynone => true
  | _, _ => false

/-- Python `str()` of a `PyVal`, used when an error value is reported. -/
def PyVal.pystr : PyVal → String
  | PyVal.str s => s
  | PyVal.bool b => if b then "True" else "False"
  | PyVal.pynone => "None"

/-- A message content: a Python dict from string keys to values,
modelled as an association list (first occurrence of a key wins). -/
abbrev Content := List (String × PyVal)

/-- `content.get(k)`: the value stored under `k`, or `None` if absent. -/
def pyGet (c : Content) (k : String) : PyVal :=
  match c.find? (fun kv => kv.1 = k) with
  | some kv => kv.2
  | none => PyVal.pynone

/-- `content.get(k, d)`: the value stored under `k`, or the default `d`
if the key is absent. -/
def pyGetD (c : Content) (k : String) (d : PyVal) : PyVal :=
  match c.find? (fun kv => kv.1 = k) with
  | some kv => kv.2
  | none => d

/-- Whether the dict has the key `k` (`k in content`). -/
def hasKey (c : Content) (k : String) : Bool :=
  (c.find? (fun kv => kv.1 = k)).isSome

/-- Python truthiness of a dict: a dict is truthy iff it is nonempty. -/
def contentTruthy (c : Content) : Bool := !c.isEmpty

/-- The response store `self.conversion_responses`: a Python dict mapping
a sender agent id to the last recognized conversion-response content. -/
abbrev Store := List (String × Content)

/-- `self.conversion_responses.get`-style lookup of the entry for an agent id
(`agent_id in self.conversion_responses` plus the read). -/
def storeGet (st : Store) (k : String) : Option Content :=
  (st.find? (fun kv => kv.1 = k)).map (fun kv => kv.2)

/-- Removal of the entry for a key (`del self.conversion_responses[k]`). -/
def storeErase (st : Store) (k : String) : Store :=
  st.filter (fun kv => !(kv.1 = k))

/-- Dict assignment `self.conversion_responses[k] = v`: replaces any
existing entry for `k`. -/
def storeSet (st : Store) (k : String) (v : Content) : Store :=
  (k, v) :: storeErase st k

/-- Number of entries stored under key `k`; in a Python dict this is
always at most 1, and the model keeps that as an invariant. -/
def keyCount (st : Store) (k : String) : Nat :=
  (st.filter (fun kv => kv.1 = k)).length

/-- The recognition test of `_handle_conversion_response` (client.py:107):
`content and (content.get("conversion_status") or content.get("action") == "conversion_result")`. -/
def recognizesConversionResult (content : Content) : Bool :=
  contentTruthy content &&
    ((pyGet content "conversion_status").truthy ||
      pyEq (pyGet content "action") (PyVal.str "conversion_result"))

/-- `OpenConvertClient._handle_conversion_response` (client.py:100-109):
if the content is recognized as a conversion result, store it under the
sender's id; otherwise leave the store unchanged. -/
def handle_conversion_response (st : Store) (content : Content) (senderId : String) : Store :=
  if recognizesConversionResult content then storeSet st senderId content else st

/-- The stale-entry clearing step of `convert_file` (client.py:203-205):
`if agent_id in self.conversion_responses: del self.conversion_responses[agent_id]`. -/
def clear_stale (st : Store) (agentId : String) : Store :=
  if (storeGet st agentId).isSome then storeErase st agentId else st

/-- Whether a response is present in the store at poll tick `t`, for a
response that the network records just before time `arrival` (in seconds
from the start of the wait); `Option.none` means no response ever arrives. -/
def respPresent (arrival : Option Nat) (t : Nat) : Bool :=
  match arrival with
  | Option.none => false
  | Option.some a => a ≤ t

/-- One fuel-counted unfolding of the wait loop of `convert_file`
(client.py:212-215): each iteration sleeps one second (tick `t` becomes
`t + 1`) and then checks the store; returns the detection tick, or
`Option.none` if the fuel (remaining iterations) runs out. -/
def waitGo (arrival : Option Nat) : Nat → Nat → Option Nat
  | 0, _ => Option.none
  | n + 1, t =>
      if respPresent arrival (t + 1) then Option.some (t + 1)
      else waitGo arrival n (t + 1)

/-- The wait phase of `convert_file` (`for _ in range(timeout)` at
client.py:212): polls once per second for up to `timeout` ticks and
returns the tick at which the response was first seen, if any. -/
def wait_for_response (arrival : Option Nat) (timeout : Nat) : Option Nat :=
  waitGo arrival timeout 0

/-- Seconds spent inside the wait loop: the detection tick when a response
is seen, and the full `timeout` when the loop runs out. -/
def waitElapsed (arrival : Option Nat) (timeout : Nat) : Nat :=
  match wait_for_response arrival timeout with
  | Option.some d => d
  | Option.none => timeout

/-- `OpenConvertClient.discover_agents` (client.py:111-140): raises when the
client is not connected; otherwise issues the discovery query (abstracted as
its outcome `query`) and catches any error from it, returning the empty
list in that case. -/
def discover_agents (connected : Bool)
    (query : Except String (List String)) : Except String (List String) :=
  if !connected then Except.error "Client is not connected to network"
  else
    match query with
    | Except.ok agents => Except.ok agents
    | Except.error _ => Except.ok []

/-- The exceptions `convert_file` can raise past its guards. -/
inductive PyErr where
  | runtimeError
  | fileNotFound
deriving DecidableEq, Repr

/-- Observable side effects of one `convert_file` call: the discovery query,
the direct-message send to the chosen agent, and the output-file write. -/
inductive Effect where
  | discover
  | send (agentId : String)
  | write
deriving DecidableEq, Repr

/-- The success test of the wait loop (client.py:219):
`response.get("conversion_status") == "success" or response.get("success") == True`. -/
def successMarker (r : Content) : Bool :=
  pyEq (pyGet r "conversion_status") (PyVal.str "success") ||
    pyEq (pyGet r "success") (PyVal.bool true)

/-- The error test of the wait loop (client.py:244):
`response.get("conversion_status") == "error" or response.get("success") == False`. -/
def errorMarker (r : Content) : Bool :=
  pyEq (pyGet r "conversion_status") (PyVal.str "error") ||
    pyEq (pyGet r "success") (PyVal.bool false)

/-- Python `a or b` on values: `a` if truthy, else `b`. -/
def pyOr (a b : PyVal) : PyVal := if a.truthy then a else b

/-- The reported failure reason of the error branch (client.py:245):
`response.get("error", "Unknown error")`, rendered as a string. -/
def agentErrMsg (r : Content) : String :=
  (pyGetD r "error" (PyVal.str "Unknown error")).pystr

/-- Outcome of processing one recorded response inside the wait loop:
the output file was written, the conversion failed with a reason, or the
response matched neither branch and the loop keeps polling. -/
inductive ProcResult where
  | written
  | failed (reason : String)
  | keepWaiting
deriving DecidableEq, Repr

/-- Response processing of `convert_file` (client.py:219-247). `b64ok`
abstracts whether `base64.b64decode` succeeds on a given payload string, and
`writeOk` whether creating the output directory and writing the file
succeeds; a failure of either is caught and reported as a save error. -/
def processResponse (r : Content) (b64ok : String → Bool) (writeOk : Bool) : ProcResult :=
  if successMarker r then
    if !(pyOr (pyGet r "file_data") (pyGet r "output_data")).truthy then
      ProcResult.failed "No converted data in response"
    else
      match pyOr (pyGet r "file_data") (pyGet r "output_data") with
      | PyVal.str s =>
          if b64ok s && writeOk then ProcResult.written
          else ProcResult.failed "Error saving converted file"
      | _ => ProcResult.failed "Error saving converted file"
  else if errorMarker r then ProcResult.failed (agentErrMsg r)
  else ProcResult.keepWaiting

/-- The inputs of one `convert_file` call, with the external collaborators
abstracted by their outcomes: connection state, input-file existence, result
of the discovery query, response arrival time and content, and the behavior
of decoding and writing. -/
structure ConvParams where
  connected : Bool
  inputExists : Bool
  queryResult : Except String (List String)
  arrival : Option Nat
  response : Content
  timeout : Nat
  b64ok : String → Bool
  writeOk : Bool

/-- `OpenConvertClient.convert_file` (client.py:142-255): the two guards run
before anything else; then discovery (whose errors yield an empty agent
list), agent selection (first agent wins), send, and the polled wait; a
response matching neither the success nor the error branch is re-read every
tick until the loop times out, which returns `False` just like a failure.
The effect list records the discovery query, the send, and any file write. -/
def convert_file_run (p : ConvParams) : Except PyErr Bool × List Effect :=
  if !p.connected then (Except.error PyErr.runtimeError, [])
  else if !p.inputExists then (Except.error PyErr.fileNotFound, [])
  else
    match discover_agents true p.queryResult with
    | Except.error _ => (Except.ok false, [Effect.discover])
    | Except.ok agents =>
      if agents.isEmpty then (Except.ok false, [Effect.discover])
      else
        match wait_for_response p.arrival p.timeout with
        | Option.none =>
            (Except.ok false, [Effect.discover, Effect.send (agents.headD "")])
        | Option.some _ =>
            match processResponse p.response p.b64ok p.writeOk with
            | ProcResult.written =>
                (Except.ok true,
                  [Effect.discover, Effect.send (agents.headD ""), Effect.write])
            | ProcResult.failed _ =>
                (Except.ok false, [Effect.discover, Effect.send (agents.headD "")])
            | ProcResult.keepWaiting =>
                (Except.ok false, [Effect.discover, Effect.send (agents.headD "")])

/-- Outcome of one per-file conversion call as seen by a caller: a returned
boolean, or a raised exception carrying a message. -/
inductive ConvOutcome where
  | ok (success : Bool)
  | exn (msg : String)

/-- The value a `try/except` around a conversion call observes: the returned
boolean, with a raised exception handled as a failure. -/
def outcomeBool : ConvOutcome → Bool
  | ConvOutcome.ok b => b
  | ConvOutcome.exn _ => false

/-- `OpenConvertClient.convert_files_batch` (client.py:257-296): iterates
the per-file conversion sequentially, appending `False` for a file whose
conversion raises; returns the result list together with the ordered trace
of per-file invocations. -/
def convert_files_batch {α : Type} (conv : α → ConvOutcome) (files : List α) :
    List Bool × List α :=
  files.foldl
    (fun acc f => (acc.1 ++ [outcomeBool (conv f)], acc.2 ++ [f]))
    ([], [])

/-- `convert_files` of openconvert_cli.py (lines 141-261): calls
`client.connect` but ignores its boolean result (`connectOk`); then loops
over the files, invoking `client.convert_file` for each inside a per-file
`try/except`. When the connection failed, each invocation raises the
not-connected error, which the per-file handler swallows. Returns the
overall boolean (true iff at least one success, or the batch is empty),
the per-file results, and the trace of per-file invocations. -/
def convert_files {α : Type} (connectOk : Bool) (conv : α → ConvOutcome)
    (files : List α) : Bool × List Bool × List α :=
  let step := fun (acc : List Bool × List α) f =>
    let r := if connectOk then outcomeBool (conv f) else false
    (acc.1 ++ [r], acc.2 ++ [f])
  let run := files.foldl step ([], [])
  let successCount := (run.1.filter (fun b => b)).length
  let overall :=
    if successCount = files.length then true
    else if 0 < successCount then true
    else false
  (overall, run.1, run.2)

/-- A filesystem path: directory components plus the final component. -/
structure FPath where
  dirs : List String
  base : String
deriving DecidableEq, Repr

/-- Index of the last dot of a filename, if any. -/
def lastDotIdx (s : String) : Option Nat :=
  ((List.range s.length).filter (fun i => s.toList.getD i ' ' = '.')).getLast?

/-- Python pathlib `Path(name).suffix`: the part of the final component from
its last dot, when that dot is neither leading nor trailing; `""` otherwise. -/
def pySuffix (s : String) : String :=
  match lastDotIdx s with
  | Option.some i =>
      if 0 < i ∧ i + 1 < s.length then String.mk (s.toList.drop i) else ""
  | Option.none => ""

/-- Python pathlib `Path(name).stem`: the final component without its
`pySuffix`. -/
def pyStem (s : String) : String :=
  match lastDotIdx s with
  | Option.some i =>
      if 0 < i ∧ i + 1 < s.length then String.mk (s.toList.take i) else s
  | Option.none => s

/-- The hand-maintained fallback extension table of `convert_files`
(openconvert_cli.py:213-221). -/
def fallbackExtMap : List (String × String) :=
  [("text/plain", ".txt"), ("text/markdown", ".md"), ("text/html", ".html"),
   ("application/pdf", ".pdf"), ("image/png", ".png"), ("image/jpeg", ".jpg"),
   ("application/json", ".json")]

/-- Lookup in the fallback table, with the generic `.out` default
(openconvert_cli.py:222). -/
def fallbackExt (fmt : String) : String :=
  match fallbackExtMap.find? (fun kv => kv.1 = fmt) with
  | Option.some kv => kv.2
  | Option.none => ".out"

/-- Target-extension selection (openconvert_cli.py:204-222): first the scan
of `mimetypes.types_map` (an external table, abstracted as `sysExt`), then
the fallback table. Python tests `if not target_ext`, so an empty string
from the system table also falls through to the fallback. -/
def targetExtFor (sysExt : String → Option String) (fmt : String) : String :=
  match sysExt fmt with
  | Option.some e => if e = "" then fallbackExt fmt else e
  | Option.none => fallbackExt fmt

/-- Output-path planning of `convert_files` (openconvert_cli.py:189-224):
a single input keeps the caller's output path verbatim; with several inputs
the output directory is the output path itself when its final component has
no suffix, and otherwise the path's parent joined with its stem; the
per-file output name is the input stem plus the selected target extension. -/
def planOutputPath (nInputs : Nat) (inputStem : String) (outputPath : FPath)
    (targetFormat : String) (sysExt : String → Option String) : FPath :=
  if nInputs = 1 then outputPath
  else
    let outputDir :=
      if !(pySuffix outputPath.base = "") then
        FPath.mk outputPath.dirs (pyStem outputPath.base)
      else outputPath
    FPath.mk (outputDir.dirs ++ [outputDir.base])
      (inputStem ++ targetExtFor sysExt targetFormat)

theorem clear_stale_eq_erase (st : Store) (a : String) :
    clear_stale st a = storeErase st a := by
  unfold clear_stale storeGet
  cases hfind : st.find? (fun kv => kv.1 = a) with
  | some kv => simp
  | none =>
    simp only [Option.map_none', Option.isSome_none, Bool.false_eq_true, if_false]
    unfold storeErase
    rw [List.find?_eq_none] at hfind
    symm
    apply List.filter_eq_self.mpr
    intro kv hmem
    have := hfind kv hmem
    simpa using this

theorem storeGet_erase_self (st : Store) (a : String) :
    storeGet (storeErase st a) a = none := by
  unfold storeGet storeErase
  induction st with
  | nil => rfl
  | cons kv tl ih =>
    simp only [List.filter_cons]
    by_cases hk : kv.1 = a
    · have : (!(kv.1 = a : Bool)) = false := by simp [hk]
      rw [this, if_neg (by simp)]
      exact ih
    · have : (!(kv.1 = a : Bool)) = true := by simp [hk]
      rw [this, if_pos rfl]
      simp only [List.find?_cons]
      have : (decide (kv.1 = a)) = false := by simp [hk]
      rw [this]
      exact ih

theorem storeGet_erase_other (st : Store) (a b : String) (h : a ≠ b) :
    storeGet (storeErase st a) b = storeGet st b := by
  unfold storeGet storeErase
  induction st with
  | nil => rfl
  | cons kv tl ih =>
    simp only [List.filter_cons, List.find?_cons]
    by_cases hk : kv.1 = a
    · have h1 : (!(kv.1 = a : Bool)) = false := by simp [hk]
      rw [h1, if_neg (by simp)]
      have h2 : (decide (kv.1 = b)) = false := by
        simp only [decide_eq_false_iff_not]
        rw [hk]
        exact h
      rw [h2]
      exact ih
    · have h1 : (!(kv.1 = a : Bool)) = true := by simp [hk]
      rw [h1, if_pos rfl]
      simp only [List.find?_cons]
      by_cases hb : kv.1 = b
      · have : (decide (kv.1 = b)) = true := by simp [hb]
        rw [this]
      · have : (decide (kv.1 = b)) = false := by simp [hb]
        rw [this]
        exact ih

theorem storeGet_set_self (st : Store) (a : String) (v : Content) :
    storeGet (storeSet st a v) a = some v := by
  unfold storeSet storeGet
  simp [List.find?_cons]

theorem storeGet_set_other (st : Store) (a b : String) (v : Content) (h : a ≠ b) :
    storeGet (storeSet st a v) b = storeGet st b := by
  unfold storeSet
  show storeGet ((a, v) :: storeErase st a) b = storeGet st b
  unfold storeGet
  simp only [List.find?_cons]
  have : (decide ((a, v).1 = b)) = false := by simp [h]
  rw [this]
  exact storeGet_erase_other st a b h

theorem keyCount_erase_self (st : Store) (a : String) :
    keyCount (storeErase st a) a = 0 := by
  unfold keyCount storeErase
  rw [List.filter_filter]
  have : ∀ kv : String × Content,
      (decide (kv.1 = a) && !(decide (kv.1 = a))) = false := by
    intro kv
    cases h : decide (kv.1 = a) <;> simp
  simp only [this]
  simp

theorem keyCount_erase_le (st : Store) (a b : String) :
    keyCount (storeErase st a) b ≤ keyCount st b := by
  unfold keyCount storeErase
  exact List.Sublist.length_le (List.Sublist.filter _ (List.filter_sublist st))

theorem keyCount_set_self (st : Store) (a : String) (v : Content) :
    keyCount (storeSet st a v) a = 1 := by
  unfold storeSet keyCount
  rw [List.filter_cons]
  simp only [decide_eq_true_eq, if_true]
  have h0 : keyCount (storeErase st a) a = 0 := keyCount_erase_self st a
  unfold keyCount at h0
  simp [h0]

theorem keyCount_set_other (st : Store) (a b : String) (v : Content) (h : a ≠ b) :
    keyCount (storeSet st a v) b ≤ keyCount st b := by
  unfold storeSet keyCount
  rw [List.filter_cons]
  have : (decide ((a, v).1 = b)) = false := by simp [h]
  rw [this]
  simp only [Bool.false_eq_true, if_false]
  exact keyCount_erase_le st a b

/-- Claim C2: a conversion response recorded for sender `x` is never observed
under a different agent id `y`: the callback writes only under the sender's
id, so the entry read for `y` is unchanged by it. -/
theorem c2_no_cross_agent_delivery (st : Store) (x y : String) (c : Content)
    (hxy : x ≠ y) :
    storeGet (handle_conversion_response st c x) y = storeGet st y := by
  unfold handle_conversion_response
  by_cases hr : recognizesConversionResult c = true
  · rw [if_pos hr]
    exact storeGet_set_other st x y c hxy
  · rw [if_neg hr]

theorem c2_no_cross_agent_delivery_witness :
    ("agentX" : String) ≠ "agentY" ∧
    storeGet (handle_conversion_response []
        [("conversion_status", PyVal.str "success")] "agentX") "agentY" =
      storeGet [] "agentY" :=
  ⟨by decide,
   c2_no_cross_agent_delivery [] "agentX" "agentY"
     [("conversion_status", PyVal.str "success")] (by decide)⟩

/-- Claim C3: before a request is dispatched the stale entry for the target
agent id is removed, so the wait cannot consume a leftover response; the
per-id uniqueness invariant (at most one tracked entry per agent id) is
preserved by both the clearing step and the response callback. -/
theorem c3_clear_stale_invariant (st : Store) (a : String) (c : Content) (s : String)
    (hinv : ∀ b, keyCount st b ≤ 1) :
    storeGet (clear_stale st a) a = none ∧
    keyCount (clear_stale st a) a = 0 ∧
    (∀ b, keyCount (clear_stale st a) b ≤ 1) ∧
    (∀ b, keyCount (handle_conversion_response st c s) b ≤ 1) := by
  refine ⟨?_, ?_, ?_, ?_⟩
  · rw [clear_stale_eq_erase]
    exact storeGet_erase_self st a
  · rw [clear_stale_eq_erase]
    exact keyCount_erase_self st a
  · intro b
    rw [clear_stale_eq_erase]
    exact Nat.le_trans (keyCount_erase_le st a b) (hinv b)
  · intro b
    unfold handle_conversion_response
    by_cases hr : recognizesConversionResult c = true
    · rw [if_pos hr]
      by_cases hb : s = b
      · subst hb
        rw [keyCount_set_self]
      · exact Nat.le_trans (keyCount_set_other st s b c hb) (hinv b)
    · rw [if_neg hr]
      exact hinv b

theorem c3_clear_stale_invariant_witness :
    (∀ b, keyCount [("agentA", [("conversion_status", PyVal.str "success")])] b ≤ 1) ∧
    storeGet (clear_stale [("agentA", [("conversion_status", PyVal.str "success")])]
      "agentA") "agentA" = none := by
  have hinv : ∀ b, keyCount
      [("agentA", [("conversion_status", PyVal.str "success")])] b ≤ 1 := by
    intro b
    unfold keyCount
    rw [List.filter_cons]
    cases h : decide (("agentA", [("conversion_status", PyVal.str "success")]).1 = b) <;> simp
  exact ⟨hinv,
    (c3_clear_stale_invariant _ "agentA" [] "agentA" hinv).1⟩

theorem recognizes_nonempty (c : Content)
    (h : ((pyGet c "conversion_status").truthy ||
        pyEq (pyGet c "action") (PyVal.str "conversion_result")) = true) :
    contentTruthy c = true := by
  cases c with
  | nil =>
    exfalso
    simp [pyGet, PyVal.truthy, pyEq] at h
  | cons kv tl => simp [contentTruthy]

/-- Claim C4 (counterexample): the content `\x7b"conversion_status": ""\x7d`
has a `conversion_status` field, yet the handler does not store it, because
the code tests Python truthiness of the value, and the empty string is falsy. -/
theorem c4_counterexample :
    hasKey [("conversion_status", PyVal.str "")] "conversion_status" = true ∧
    handle_conversion_response [] [("conversion_status", PyVal.str "")] "agentA" = [] := by
  exact ⟨by decide, by decide⟩

/-- Claim C4 (amended): an inbound content is stored under the sender's id
exactly when its `conversion_status` value is truthy (present and non-falsy)
or its `action` value equals "conversion_result"; an unrecognized message
leaves the store unchanged, and a recognized one overwrites the entry. -/
theorem c4_handler_recognition (st : Store) (c : Content) (s : String) :
    (((pyGet c "conversion_status").truthy ||
        pyEq (pyGet c "action") (PyVal.str "conversion_result")) = true →
      storeGet (handle_conversion_response st c s) s = some c) ∧
    (((pyGet c "conversion_status").truthy ||
        pyEq (pyGet c "action") (PyVal.str "conversion_result")) = false →
      handle_conversion_response st c s = st) := by
  constructor
  · intro h
    have hne := recognizes_nonempty c h
    unfold handle_conversion_response recognizesConversionResult
    rw [hne, h]
    simp only [Bool.and_self, if_true]
    exact storeGet_set_self st s c
  · intro h
    unfold handle_conversion_response recognizesConversionResult
    rw [h]
    simp

theorem c4_handler_recognition_witness :
    (((pyGet [("action", PyVal.str "conversion_result")] "conversion_status").truthy ||
        pyEq (pyGet [("action", PyVal.str "conversion_result")] "action")
          (PyVal.str "conversion_result")) = true) ∧
    storeGet (handle_conversion_response []
        [("action", PyVal.str "conversion_result")] "agentB") "agentB" =
      some [("action", PyVal.str "conversion_result")] :=
  ⟨by decide,
   (c4_handler_recognition [] [("action", PyVal.str "conversion_result")] "agentB").1
     (by decide)⟩

theorem waitGo_arrival_none (n t : Nat) : waitGo Option.none n t = Option.none := by
  induction n generalizing t with
  | zero => rfl
  | succ m ih =>
    unfold waitGo
    simp only [respPresent, Bool.false_eq_true, if_false]
    exact ih (t + 1)

theorem waitGo_late (a : Nat) : ∀ (n t : Nat), t + n < a →
    waitGo (Option.some a) n t = Option.none := by
  intro n
  induction n with
  | zero => intro t _; rfl
  | succ m ih =>
    intro t h
    unfold waitGo
    have hnp : respPresent (Option.some a) (t + 1) = false := by
      simp only [respPresent, decide_eq_false_iff_not]
      omega
    rw [hnp]
    simp only [Bool.false_eq_true, if_false]
    exact ih (t + 1) (by omega)

theorem waitGo_found (a : Nat) : ∀ (n t : Nat), 0 < n → a ≤ t + n →
    waitGo (Option.some a) n t = Option.some (max a (t + 1)) := by
  intro n
  induction n with
  | zero => intro t h _; exact absurd h (by omega)
  | succ m ih =>
    intro t _ hle
    unfold waitGo
    by_cases hat : a ≤ t + 1
    · have hp : respPresent (Option.some a) (t + 1) = true := by
        simp [respPresent, hat]
      rw [hp]
      simp only [if_true]
      have hmax : max a (t + 1) = t + 1 := by omega
      rw [hmax]
    · have hf : respPresent (Option.some a) (t + 1) = false := by
        simp only [respPresent, decide_eq_false_iff_not]
        omega
      rw [hf]
      simp only [Bool.false_eq_true, if_false]
      cases m with
      | zero => omega
      | succ k =>
        rw [ih (t + 1) (by omega) (by omega)]
        have hmax : max a (t + 1 + 1) = max a (t + 1) := by omega
        rw [hmax]

theorem waitGo_le (arrival : Option Nat) : ∀ (n t d : Nat),
    waitGo arrival n t = Option.some d → d ≤ t + n := by
  intro n
  induction n with
  | zero =>
    intro t d h
    exact absurd h (by simp [waitGo])
  | succ m ih =>
    intro t d h
    unfold waitGo at h
    cases hp : respPresent arrival (t + 1) with
    | true =>
      rw [hp] at h
      simp only [if_true, Option.some.injEq] at h
      omega
    | false =>
      rw [hp] at h
      simp only [Bool.false_eq_true, if_false] at h
      have := ih (t + 1) d h
      omega

/-- Claim C1: if no response for the chosen agent is recorded within `T`
poll ticks the wait phase returns no detection tick and `convert_file`
returns the timed-out `False` outcome; the wait lasts at most `T` seconds
(so never longer than `T` plus one poll interval); and a response recorded
at time `a` within the window is detected within one poll interval of its
arrival. -/
theorem c1_wait_timeout_bound (arrival : Option Nat) (T : Nat) (p : ConvParams)
    (hc : p.connected = true) (hi : p.inputExists = true)
    (hn : p.arrival = Option.none) :
    (arrival = Option.none → wait_for_response arrival T = Option.none) ∧
    (∀ a, arrival = Option.some a → T < a →
      wait_for_response arrival T = Option.none) ∧
    (∀ a, arrival = Option.some a → a ≤ T → 0 < T →
      wait_for_response arrival T = Option.some (max a 1) ∧
        max a 1 ≤ a + 1 ∧ a ≤ max a 1) ∧
    waitElapsed arrival T ≤ T + 1 ∧
    (convert_file_run p).1 = Except.ok false := by
  refine ⟨?_, ?_, ?_, ?_, ?_⟩
  · intro h
    subst h
    exact waitGo_arrival_none T 0
  · intro a h hlt
    subst h
    exact waitGo_late a T 0 (by omega)
  · intro a h hle hpos
    subst h
    refine ⟨?_, by omega, by omega⟩
    have hfind := waitGo_found a T 0 hpos (by omega)
    simpa using hfind
  · unfold waitElapsed
    cases hw : wait_for_response arrival T with
    | none =>
      show T ≤ T + 1
      omega
    | some d =>
      show d ≤ T + 1
      have := waitGo_le arrival T 0 d hw
      omega
  · unfold convert_file_run
    rw [hc, hi]
    simp only [Bool.not_true, Bool.false_eq_true, if_false]
    cases hq : discover_agents true p.queryResult with
    | error e => rfl
    | ok agents =>
      dsimp only
      by_cases ha : agents.isEmpty = true
      · rw [if_pos ha]
      · rw [if_neg ha, hn]
        rw [show wait_for_response Option.none p.timeout = Option.none from
          waitGo_arrival_none p.timeout 0]

theorem c1_wait_timeout_bound_witness :
    wait_for_response (Option.some 2) 5 = Option.some 2 ∧
    (convert_file_run
        ⟨true, true, Except.ok ["agentA"], Option.none, [], 5,
          fun _ => true, true⟩).1 = Except.ok false := by
  have h := c1_wait_timeout_bound (Option.some 2) 5
    ⟨true, true, Except.ok ["agentA"], Option.none, [], 5, fun _ => true, true⟩
    rfl rfl rfl
  refine ⟨?_, h.2.2.2.2⟩
  have hd := (h.2.2.1 2 rfl (by omega) (by omega)).1
  simpa using hd

/-- Claim C5: the batch conversion maps the per-file conversion over the
input list: one invocation per entry in input order, one outcome per input
in input order, and a failure or exception on one file leaves every other
file's outcome unchanged; in particular a three-file batch whose second
file fails yields `[true, false, true]`. -/
theorem c5_batch_sequential :
    (∀ (α : Type) (conv : α → ConvOutcome) (files : List α),
      convert_files_batch conv files =
        (files.map (fun f => outcomeBool (conv f)), files)) ∧
    convert_files_batch
        (fun n => if n = 2 then ConvOutcome.ok false else ConvOutcome.ok true)
        [1, 2, 3] = ([true, false, true], [1, 2, 3]) := by
  have hgen : ∀ (α : Type) (conv : α → ConvOutcome) (files : List α)
      (acc : List Bool × List α),
      files.foldl (fun acc f => (acc.1 ++ [outcomeBool (conv f)], acc.2 ++ [f])) acc =
        (acc.1 ++ files.map (fun f => outcomeBool (conv f)), acc.2 ++ files) := by
    intro α conv files
    induction files with
    | nil => intro acc; simp
    | cons x xs ih =>
      intro acc
      simp only [List.foldl_cons, List.map_cons]
      rw [ih]
      simp
  constructor
  · intro α conv files
    unfold convert_files_batch
    have := hgen α conv files ([], [])
    simpa using this
  · rfl

/-- Claim C6 (counterexample): with a connected client, a transport-level
error during the discovery query is caught and returned as the empty agent
list, the very same value as the zero-agent outcome, so no failure distinct
from the empty result is signalled. -/
theorem c6_counterexample :
    discover_agents true (Except.error "network error") =
      Except.ok ([] : List String) ∧
    discover_agents true (Except.error "network error") =
      discover_agents true (Except.ok ([] : List String)) :=
  ⟨rfl, rfl⟩

/-- Claim C6 (amended): `discover_agents` treats an empty discovery result
as a normal, non-error outcome (returned without raising); it raises exactly
when the client is not connected; a network error during the query is caught
and yields the empty list rather than a distinct failure signal. -/
theorem c6_discovery_errors (q : Except String (List String)) :
    discover_agents false q =
      Except.error "Client is not connected to network" ∧
    (∀ l, discover_agents true (Except.ok l) = Except.ok l) ∧
    (∀ e, discover_agents true (Except.error e) = Except.ok []) :=
  ⟨rfl, fun _ => rfl, fun _ => rfl⟩

/-- Claim C7 (counterexample): with the connection failed, a two-file CLI
batch still invokes the per-file conversion for both files (the invocation
trace is the whole input list, not empty), so the batch does not abort
before attempting per-file conversions. -/
theorem c7_counterexample :
    convert_files false (fun _ : Nat => ConvOutcome.ok true) [1, 2] =
      (false, [false, false], [1, 2]) ∧
    ((convert_files false (fun _ : Nat => ConvOutcome.ok true) [1, 2]).2.2).length ≠ 0 :=
  ⟨rfl, by decide⟩

/-- Claim C7 (amended): a connection failure is not fatal to the CLI batch:
the `connect` result is ignored, every file is still passed to
`convert_file`, whose not-connected error is caught per file and becomes a
failure outcome for that file only, and the nonempty batch then returns
overall failure; with a working connection every per-file error likewise
becomes a failure outcome for that file only, in input order. -/
theorem c7_connect_failure_not_fatal {α : Type} (conv : α → ConvOutcome)
    (files : List α) :
    (convert_files false conv files).2.2 = files ∧
    (convert_files false conv files).2.1 = files.map (fun _ => false) ∧
    (files ≠ [] → (convert_files false conv files).1 = false) ∧
    (convert_files true conv files).2.1 =
      files.map (fun f => outcomeBool (conv f)) := by
  have hgen : ∀ (g : α → Bool) (fs : List α) (acc : List Bool × List α),
      fs.foldl (fun acc f => (acc.1 ++ [g f], acc.2 ++ [f])) acc =
        (acc.1 ++ fs.map g, acc.2 ++ fs) := by
    intro g fs
    induction fs with
    | nil => intro acc; simp
    | cons x xs ih =>
      intro acc
      simp only [List.foldl_cons, List.map_cons]
      rw [ih]
      simp
  have hfalse : (convert_files false conv files).2 =
      (files.map (fun _ => false), files) := by
    unfold convert_files
    simp only [Bool.false_eq_true, if_false]
    have := hgen (fun _ => false) files ([], [])
    rw [this]
    simp
  have htrue : (convert_files true conv files).2 =
      (files.map (fun f => outcomeBool (conv f)), files) := by
    unfold convert_files
    simp only [if_true]
    have := hgen (fun f => outcomeBool (conv f)) files ([], [])
    rw [this]
    simp
  refine ⟨?_, ?_, ?_, ?_⟩
  · rw [show (convert_files false conv files).2.2 =
      ((convert_files false conv files).2).2 from rfl, hfalse]
  · rw [show (convert_files false conv files).2.1 =
      ((convert_files false conv files).2).1 from rfl, hfalse]
  · intro hne
    unfold convert_files
    simp only [Bool.false_eq_true, if_false]
    rw [hgen (fun _ => false) files ([], [])]
    simp only [List.nil_append]
    have hfilter : (files.map (fun _ => false)).filter (fun b => b) = [] := by
      apply List.filter_eq_nil_iff.mpr
      intro b hb
      rcases List.mem_map.mp hb with ⟨f, _, hf⟩
      subst hf
      simp
    have hlen : files.length ≠ 0 := by
      intro h0
      exact hne (List.eq_nil_of_length_eq_zero h0)
    simp only [hfilter, List.length_nil]
    rw [if_neg (by omega)]
    simp
  · rw [show (convert_files true conv files).2.1 =
      ((convert_files true conv files).2).1 from rfl, htrue]

theorem c7_connect_failure_not_fatal_witness :
    ([1, 2] : List Nat) ≠ [] ∧
    (convert_files false (fun _ : Nat => ConvOutcome.ok false) [1, 2]).1 = false :=
  ⟨by decide,
   (c7_connect_failure_not_fatal (fun _ : Nat => ConvOutcome.ok false) [1, 2]).2.2.1
     (by decide)⟩

theorem convert_file_run_no_write (p : ConvParams)
    (hc : p.connected = true) (hi : p.inputExists = true)
    (hnw : processResponse p.response p.b64ok p.writeOk ≠ ProcResult.written) :
    (convert_file_run p).1 = Except.ok false ∧
    Effect.write ∉ (convert_file_run p).2 := by
  unfold convert_file_run
  rw [hc, hi]
  simp only [Bool.not_true, Bool.false_eq_true, if_false]
  cases hq : discover_agents true p.queryResult with
  | error e => exact ⟨rfl, by simp⟩
  | ok agents =>
    dsimp only
    by_cases ha : agents.isEmpty = true
    · rw [if_pos ha]
      exact ⟨rfl, by simp⟩
    · rw [if_neg ha]
      cases hw : wait_for_response p.arrival p.timeout with
      | none => exact ⟨rfl, by simp⟩
      | some d =>
        cases hpr : processResponse p.response p.b64ok p.writeOk with
        | written => exact absurd hpr hnw
        | failed r => exact ⟨rfl, by simp⟩
        | keepWaiting => exact ⟨rfl, by simp⟩

/-- Claim C8 (counterexample): a recorded response that carries the error
marker `conversion_status == "error"` together with `success == True` and a
payload takes the success branch first, so the output file is written and
the call returns success, not the failure the claim requires. -/
theorem c8_counterexample :
    errorMarker [("conversion_status", PyVal.str "error"),
      ("success", PyVal.bool true), ("file_data", PyVal.str "QUJD")] = true ∧
    processResponse [("conversion_status", PyVal.str "error"),
        ("success", PyVal.bool true), ("file_data", PyVal.str "QUJD")]
      (fun _ => true) true = ProcResult.written :=
  ⟨by decide, by decide⟩

/-- Claim C8 (amended): a recorded response carrying an error marker and no
success marker makes `convert_file` fail with the agent-supplied error
message (default "Unknown error") and write no output file; a response
carrying a success marker but neither `file_data` nor `output_data` fails
with no output file written. (A response carrying both markers takes the
success branch, which is checked first — see the counterexample.) -/
theorem c8_error_and_missing_payload (p : ConvParams)
    (hc : p.connected = true) (hi : p.inputExists = true) :
    (errorMarker p.response = true → successMarker p.response = false →
      processResponse p.response p.b64ok p.writeOk =
        ProcResult.failed (agentErrMsg p.response) ∧
      (convert_file_run p).1 = Except.ok false ∧
      Effect.write ∉ (convert_file_run p).2) ∧
    (successMarker p.response = true →
      pyGet p.response "file_data" = PyVal.pynone →
      pyGet p.response "output_data" = PyVal.pynone →
      processResponse p.response p.b64ok p.writeOk =
        ProcResult.failed "No converted data in response" ∧
      (convert_file_run p).1 = Except.ok false ∧
      Effect.write ∉ (convert_file_run p).2) := by
  constructor
  · intro herr hsuc
    have hpr : processResponse p.response p.b64ok p.writeOk =
        ProcResult.failed (agentErrMsg p.response) := by
      unfold processResponse
      rw [hsuc, herr]
      rfl
    have hno := convert_file_run_no_write p hc hi (by rw [hpr]; intro h; cases h)
    exact ⟨hpr, hno.1, hno.2⟩
  · intro hsuc hfd hod
    have hpr : processResponse p.response p.b64ok p.writeOk =
        ProcResult.failed "No converted data in response" := by
      unfold processResponse
      rw [hsuc, hfd, hod]
      rfl
    have hno := convert_file_run_no_write p hc hi (by rw [hpr]; intro h; cases h)
    exact ⟨hpr, hno.1, hno.2⟩

theorem c8_error_and_missing_payload_witness :
    errorMarker [("conversion_status", PyVal.str "error"),
      ("error", PyVal.str "unsupported prompt")] = true ∧
    successMarker [("conversion_status", PyVal.str "error"),
      ("error", PyVal.str "unsupported prompt")] = false ∧
    processResponse [("conversion_status", PyVal.str "error"),
        ("error", PyVal.str "unsupported prompt")] (fun _ => true) true =
      ProcResult.failed "unsupported prompt" ∧
    (convert_file_run
        ⟨true, true, Except.ok ["agentA"], Option.some 1,
          [("conversion_status", PyVal.str "error"),
            ("error", PyVal.str "unsupported prompt")], 5,
          fun _ => true, true⟩).1 = Except.ok false := by
  have h := (c8_error_and_missing_payload
    ⟨true, true, Except.ok ["agentA"], Option.some 1,
      [("conversion_status", PyVal.str "error"),
        ("error", PyVal.str "unsupported prompt")], 5,
      fun _ => true, true⟩ rfl rfl).1 (by decide) (by decide)
  exact ⟨by decide, by decide, h.1, h.2.1⟩

/-- Claim C9 (counterexample): with two input files and the output target
`res.pdf`, the planned output directory is `res` (the target's stem), not
the target `res.pdf` itself treated as a directory, so the claim's path is
not the one the code produces. -/
theorem c9_counterexample :
    planOutputPath 2 "doc" (FPath.mk [] "res.pdf") "text/markdown"
      (fun _ => Option.none) = FPath.mk ["res"] "doc.md" ∧
    FPath.mk ["res"] "doc.md" ≠ FPath.mk ["res.pdf"] "doc.md" :=
  ⟨by decide, by decide⟩

/-- Claim C9 (amended): with a single input file the output path is the
caller's target verbatim; with several input files the output directory is
the target itself when the target's final component has no extension, and
the target's parent joined with the target's stem when it has one; each
output file is that directory joined with the input stem plus the extension
selected for the target format, which defaults to ".out" when neither the
system table nor the fallback table maps the format. -/
theorem c9_plan_output_path (nIn : Nat) (stem : String) (out : FPath)
    (fmt : String) (sysExt : String → Option String) :
    (nIn = 1 → planOutputPath nIn stem out fmt sysExt = out) ∧
    (nIn ≠ 1 → pySuffix out.base = "" →
      planOutputPath nIn stem out fmt sysExt =
        FPath.mk (out.dirs ++ [out.base]) (stem ++ targetExtFor sysExt fmt)) ∧
    (nIn ≠ 1 → pySuffix out.base ≠ "" →
      planOutputPath nIn stem out fmt sysExt =
        FPath.mk (out.dirs ++ [pyStem out.base]) (stem ++ targetExtFor sysExt fmt)) ∧
    (sysExt fmt = Option.none →
      fallbackExtMap.find? (fun kv => kv.1 = fmt) = Option.none →
      targetExtFor sysExt fmt = ".out") := by
  refine ⟨?_, ?_, ?_, ?_⟩
  · intro h
    unfold planOutputPath
    rw [if_pos h]
  · intro hn hs
    unfold planOutputPath
    rw [if_neg hn]
    simp [hs]
  · intro hn hs
    unfold planOutputPath
    rw [if_neg hn]
    simp [hs]
  · intro h1 h2
    unfold targetExtFor fallbackExt
    rw [h1, h2]

theorem c9_plan_output_path_witness :
    (2 ≠ 1 ∧ pySuffix "outdir" = "") ∧
    planOutputPath 2 "doc" (FPath.mk [] "outdir") "application/x-foo"
        (fun _ => Option.none) =
      FPath.mk ["outdir"]
        ("doc" ++ targetExtFor (fun _ => Option.none) "application/x-foo") :=
  ⟨⟨by decide, by decide⟩,
   (c9_plan_output_path 2 "doc" (FPath.mk [] "outdir") "application/x-foo"
     (fun _ => Option.none)).2.1 (by decide) (by decide)⟩

/-- Claim C10: `convert_file` raises the not-connected `RuntimeError` when
the client is not connected, and the missing-input `FileNotFoundError` when
it is connected but the input file does not exist; both checks run before
any discovery, send, or file write (the effect list is empty) and the
exceptions propagate to the caller instead of becoming a `False` result. -/
theorem c10_guards_before_effects (p : ConvParams) :
    (p.connected = false →
      convert_file_run p = (Except.error PyErr.runtimeError, [])) ∧
    (p.connected = true → p.inputExists = false →
      convert_file_run p = (Except.error PyErr.fileNotFound, [])) := by
  constructor
  · intro h
    unfold convert_file_run
    rw [h]
    rfl
  · intro hc hi
    unfold convert_file_run
    rw [hc, hi]
    rfl

theorem c10_guards_before_effects_witness :
    (ConvParams.mk false true (Except.ok []) Option.none [] 0
        (fun _ => true) true).connected = false ∧
    convert_file_run (ConvParams.mk false true (Except.ok []) Option.none [] 0
        (fun _ => true) true) = (Except.error PyErr.runtimeError, []) :=
  ⟨rfl,
   (c10_guards_before_effects (ConvParams.mk false true (Except.ok [])
     Option.none [] 0 (fun _ => true) true)).1 rfl⟩

end OpenConvert
